import Mathlib

/-!
Shallow embedding of the core of the Rust MQTT-SN broker
(`src/lib/broker-lib/src`): the topic/filter index (`Filter.rs`), the
PUBREC codec (`PubRec.rs`), the PUBLISH handlers (`publish.rs`), the
DISCONNECT handler (`disconnect.rs`) and the unknown-peer dispatch arm of
`broker_lib.rs`.

Rust machine integers are modelled as `Nat` with explicit `% 2^w` where the
code can overflow; `SocketAddr` is modelled as an opaque identity key
(`Nat`); strings are Lean `String` (the byte/char index distinction of Rust
is irrelevant for the ASCII topic strings the broker handles); fallible
functions return `Except`.  Handlers that talk to channels or global tables
are modelled as state-passing functions that also emit an explicit list of
effects (frames enqueued on the egress channel, retransmission-wheel
operations, cache insertions).
-/

namespace MqttSn

/-- Peer identity key (IP + UDP port in the Rust code); only decidable
equality and an order for `Vec::sort` are used by the embedded code. -/
abbrev SocketAddr := Nat

/-! ## `bisetmap::BisetMap`

The global tables of `Filter.rs` are `bisetmap::BisetMap` values: a map
from keys to sets of values.  `insert` adds a (key, value) pair unless it
is already present; `get` returns the values stored under a key;
`rev_delete` drops every pair holding a given value; `collect` lists the
map as (key, values) pairs.  The model keeps pairs in insertion order and
never stores a duplicate pair. -/

structure BisetMap (α β : Type) where
  entries : List (α × β)
deriving Repr, DecidableEq

def BisetMap.empty {α β : Type} : BisetMap α β := ⟨[]⟩

def BisetMap.insert {α β : Type} [DecidableEq α] [DecidableEq β]
    (m : BisetMap α β) (k : α) (v : β) : BisetMap α β :=
  if (k, v) ∈ m.entries then m else ⟨m.entries ++ [(k, v)]⟩

def BisetMap.get {α β : Type} [DecidableEq α]
    (m : BisetMap α β) (k : α) : List β :=
  (m.entries.filter (fun e => e.1 = k)).map (fun e => e.2)

def BisetMap.revDelete {α β : Type} [DecidableEq β]
    (m : BisetMap α β) (v : β) : BisetMap α β :=
  ⟨m.entries.filter (fun e => ¬ e.2 = v)⟩

def dedupKeysAux {α : Type} [DecidableEq α] : List α → List α → List α
  | _, [] => []
  | seen, a :: l =>
    if a ∈ seen then dedupKeysAux seen l
    else a :: dedupKeysAux (a :: seen) l

/-- The distinct keys of a pair list, first occurrences kept in order. -/
def dedupKeys {α : Type} [DecidableEq α] (l : List α) : List α :=
  dedupKeysAux [] l

def BisetMap.collect {α β : Type} [DecidableEq α]
    (m : BisetMap α β) : List (α × List β) :=
  (dedupKeys (m.entries.map (fun e => e.1))).map (fun k => (k, m.get k))

/-! ## Pure string functions of `Filter.rs`

The topic strings the broker handles are ASCII, so a Rust `&str` is
modelled as its character list (byte and character positions coincide);
the `String` wrappers below convert at the boundary. -/

/-- Source `Filter.rs` `has_wildcards`: a filter has wildcards when it contains
a `+` or a `#` character. -/
def hasWildcardsL (filter : List Char) : Bool :=
  filter.contains '+' || filter.contains '#'

def has_wildcards (filter : String) : Bool :=
  hasWildcardsL filter.toList

/-- Source `Filter.rs` `valid_filter` (lines 35-51): non-empty filters without
wildcards are valid; filters with wildcards are valid only when the first
`#` (`str::find`) sits at the last position and the filter ends in
`"/#"`.  The single-level wildcard `+` is left as a TODO by the source,
so a filter holding a `+` and no trailing `"/#"` falls through to
`false`. -/
def validFilterL (filter : List Char) : Bool :=
  if filter ≠ [] then
    if hasWildcardsL filter then
      decide (filter.indexOf '#' = filter.length - 1)
        && (['/', '#'].isSuffixOf filter)
    else true
  else false

def valid_filter (filter : String) : Bool :=
  validFilterL filter.toList

/-- Rust `str::split('/')`: splitting an empty string yields one empty
level; every `/` opens a new level. -/
def splitLevels : List Char → List (List Char)
  | [] => [[]]
  | c :: rest =>
    if c = '/' then [] :: splitLevels rest
    else
      match splitLevels rest with
      | g :: gs => (c :: g) :: gs
      | [] => [[c]]

/-- The `for f in filters` loop of `Filter.rs` `match_topic`, with the
topic levels threaded through exactly as the Rust iterator is advanced. -/
def matchLevels : List (List Char) → List (List Char) → Bool
  | ts, f :: fs =>
    if f = ['#'] then true
    else
      match ts with
      | t :: ts2 =>
        if t = ['#'] then false
        else if f = ['+'] then matchLevels ts2 fs
        else if f ≠ t then false
        else matchLevels ts2 fs
      | [] => false
  | ts, [] => ts.isEmpty

/-- Source `Filter.rs` `match_topic` (lines 60-93): a non-empty topic whose
first character is `$` matches no filter; otherwise topic and filter are
split on `/` and walked level by level. -/
def matchTopicL (topic : List Char) (filter : List Char) : Bool :=
  if (match topic with
      | t0 :: _ => t0 = '$'
      | [] => false : Bool) then false
  else matchLevels (splitLevels topic) (splitLevels filter)

def match_topic (topic : String) (filter : String) : Bool :=
  matchTopicL topic.toList filter.toList

/-! ## The global filter / topic-registry state of `Filter.rs`

One record collects the `lazy_static` global tables.  `GLOBAL_TOPIC_ID`
is a `u16` initialised to `0`; the increment is taken `% 2^16` (the wrap
of release-mode Rust). -/

structure FilterState where
  concreteTopics : BisetMap String SocketAddr
  wildcardTopics : BisetMap String SocketAddr
  wildcardFilters : BisetMap String SocketAddr
  topicIds : BisetMap Nat SocketAddr
  topicIdsQos : BisetMap (Nat × SocketAddr) Nat
  topicNameToIds : BisetMap String Nat
  topicId : Nat
deriving Repr, DecidableEq

/-- The state of the `lazy_static` initialisers: every map empty and
`GLOBAL_TOPIC_ID = 0`. -/
def FilterState.initial : FilterState :=
  ⟨BisetMap.empty, BisetMap.empty, BisetMap.empty,
   BisetMap.empty, BisetMap.empty, BisetMap.empty, 0⟩

/-- Source `Filter.rs` `try_insert_topic_name` (lines 312-330): a fresh name is
given the current value of `GLOBAL_TOPIC_ID` and the counter is bumped; a
name already present returns its stored id and changes nothing. -/
def try_insert_topic_name (s : FilterState) (topic_name : String) :
    Except String Nat × FilterState :=
  let topic_ids := s.topicNameToIds.get topic_name
  if topic_ids.length = 0 then
    let topic_id := s.topicId
    (Except.ok topic_id,
     { s with
        topicNameToIds := s.topicNameToIds.insert topic_name topic_id,
        topicId := (topic_id + 1) % 65536 })
  else
    (Except.ok (topic_ids.headD 0), s)

/-- Source `Filter.rs` `insert_subscriber_with_topic_id` (lines 332-344). -/
def insert_subscriber_with_topic_id (s : FilterState)
    (socket_add : SocketAddr) (id : Nat) (qos : Nat) :
    Except String Unit × FilterState :=
  (Except.ok (),
   { s with
      topicIds := s.topicIds.insert id socket_add,
      topicIdsQos := s.topicIdsQos.insert (id, socket_add) qos })

/-- Source `Filter.rs` `get_subscribers_with_topic_id` (lines 346-357). -/
def get_subscribers_with_topic_id (s : FilterState) (id : Nat) :
    List (SocketAddr × Nat) :=
  (s.topicIds.get id).flatMap
    (fun sock => (s.topicIdsQos.get (id, sock)).map (fun qos => (sock, qos)))

/-- Source `Filter.rs` `insert_filter` (lines 365-384). -/
def insert_filter (s : FilterState) (filter : String)
    (socket_add : SocketAddr) : Except String Unit × FilterState :=
  if valid_filter filter then
    if has_wildcards filter then
      (Except.ok (),
       { s with wildcardFilters := s.wildcardFilters.insert filter socket_add })
    else
      (Except.ok (),
       { s with concreteTopics := s.concreteTopics.insert filter socket_add })
  else
    (Except.error ("invalid filter: " ++ filter), s)

def insertSorted (a : Nat) : List Nat → List Nat
  | [] => [a]
  | b :: l => if a ≤ b then a :: b :: l else b :: insertSorted a l

/-- Rust `Vec::sort` on socket addresses (model order on the identity keys). -/
def sortAddrs (l : List Nat) : List Nat := l.foldr insertSorted []

/-- Rust `Vec::dedup`: removes consecutive duplicates. -/
def dedupAdj : List Nat → List Nat
  | [] => []
  | [a] => [a]
  | a :: b :: l => if a = b then dedupAdj (b :: l) else a :: dedupAdj (b :: l)

/-- Source `Filter.rs` `match_topics` (lines 408-434): when the resolved wildcard
cache (`GLOBAL_WILDCARD_TOPICS`) has no entry for the topic, every wildcard
filter is matched and the subscribers of matching filters are inserted into
the cache; the result is the concrete subscribers appended with the cached
wildcard subscribers, sorted and deduplicated.  The cache is only populated
when its entry for the topic is empty — it is never refreshed. -/
def match_topics (s : FilterState) (topic : String) :
    List SocketAddr × FilterState :=
  let sock_vec := s.wildcardTopics.get topic
  let s1 :=
    if sock_vec.length = 0 then
      (s.wildcardFilters.collect).foldl
        (fun st fv =>
          if match_topic topic fv.1 then
            fv.2.foldl
              (fun st2 sock =>
                { st2 with
                    wildcardTopics := st2.wildcardTopics.insert topic sock })
              st
          else st)
        s
    else s
  let wildcards := s1.wildcardTopics.get topic
  let concretes := s1.concreteTopics.get topic
  (dedupAdj (sortAddrs (concretes ++ wildcards)), s1)

/-! ## Message-type and message-length constants

Modelled from the spec: the constants live in the crate root (`lib.rs`),
which is not among the given sources; the values are the MQTT-SN 1.2 type
bytes and fixed frame lengths the spec's wire-codec section describes
(PUBREC is a fixed 4-byte frame `[len, type, msg-id(2)]`, DISCONNECT is
2 bytes without and 4 bytes with the duration field, the PUBLISH header
before the data is 7 bytes — the latter also visible in `Publish::new`,
which sets `len = data.len() + 7`). -/

/-- Modelled from the spec: the CONNECT type byte (missing `lib.rs`). -/
def MSG_TYPE_CONNECT : Nat := 0x04

/-- Modelled from the spec: the PUBLISH type byte (missing `lib.rs`). -/
def MSG_TYPE_PUBLISH : Nat := 0x0C

/-- Modelled from the spec: the PUBACK type byte (missing `lib.rs`). -/
def MSG_TYPE_PUBACK : Nat := 0x0D

/-- Modelled from the spec: the PUBREC type byte (missing `lib.rs`). -/
def MSG_TYPE_PUBREC : Nat := 0x0F

/-- Modelled from the spec: the PUBREL type byte (missing `lib.rs`). -/
def MSG_TYPE_PUBREL : Nat := 0x10

/-- Modelled from the spec: the DISCONNECT type byte (missing `lib.rs`). -/
def MSG_TYPE_DISCONNECT : Nat := 0x18

/-- Modelled from the spec: the fixed PUBREC frame length (missing
`lib.rs`). -/
def MSG_LEN_PUBREC : Nat := 4

/-- Modelled from the spec: the fixed PUBACK frame length (missing
`lib.rs`). -/
def MSG_LEN_PUBACK : Nat := 7

/-- Modelled from the spec: the DISCONNECT frame length without a
duration field (missing `lib.rs`). -/
def MSG_LEN_DISCONNECT : Nat := 2

/-- Modelled from the spec: the DISCONNECT frame length with a duration
field (missing `lib.rs`). -/
def MSG_LEN_DISCONNECT_DURATION : Nat := 4

/-- Modelled from the spec: the PUBLISH header length before the data
(missing `lib.rs`; also visible in `Publish::new`). -/
def MSG_LEN_PUBLISH_HEADER : Nat := 7

/-- Modelled from the spec: the Accepted return code (missing `lib.rs`). -/
def RETURN_CODE_ACCEPTED : Nat := 0

/-! ## The flags octet

Modelled from the spec (`flags.rs` is not among the given sources): bits
7 to 0 of the flags octet pack DUP(1), QoS(2), RETAIN(1), WILL(1),
CLEAN_SESSION(1), TOPIC_ID_TYPE(2), each `QOS_LEVEL_*` constant already
shifted into the two QoS bits. -/

/-- Modelled from the spec: the cleared DUP bit (missing `flags.rs`). -/
def DUP_FALSE : Nat := 0

/-- Modelled from the spec: the cleared WILL bit (missing `flags.rs`). -/
def WILL_FALSE : Nat := 0

/-- Modelled from the spec: the cleared CLEAN_SESSION bit (missing
`flags.rs`). -/
def CLEAN_SESSION_FALSE : Nat := 0

/-- Modelled from the spec: the cleared RETAIN bit (missing `flags.rs`). -/
def RETAIN_FALSE : Nat := 0

/-- Modelled from the spec: the normal (topic-name) topic-id type
(missing `flags.rs`). -/
def TOPIC_ID_TYPE_NORMAL : Nat := 0

/-- Modelled from the spec: QoS level 0 in the two QoS flag bits
(missing `flags.rs`). -/
def QOS_LEVEL_0 : Nat := 0x00

/-- Modelled from the spec: QoS level 1 in the two QoS flag bits
(missing `flags.rs`). -/
def QOS_LEVEL_1 : Nat := 0x20

/-- Modelled from the spec: QoS level 2 in the two QoS flag bits
(missing `flags.rs`). -/
def QOS_LEVEL_2 : Nat := 0x40

/-- Modelled from the spec: QoS level 3 in the two QoS flag bits
(missing `flags.rs`). -/
def QOS_LEVEL_3 : Nat := 0x60

/-- Modelled from the spec: `flags_set` ORs the already-shifted fields
into one octet. -/
def flags_set (dup qos retain will clean tidt : Nat) : Nat :=
  dup ||| qos ||| retain ||| will ||| clean ||| tidt

/-- Modelled from the spec: `flag_qos_level` masks out the two QoS bits. -/
def flag_qos_level (flags : Nat) : Nat := flags &&& 0x60

/-- Modelled from the spec: `flag_is_retain` tests the RETAIN bit. -/
def flag_is_retain (flags : Nat) : Bool := flags &&& 0x10 ≠ 0

/-! ## `PubRec.rs`: the PUBREC codec -/

/-- The 4-byte buffer built by `PubRec::tx` (`PubRec.rs` lines 57-79):
`[MSG_LEN_PUBREC, MSG_TYPE_PUBREC, msg_id_byte_1, msg_id_byte_0]`, the
high byte of the (u16) msg-id written at index 2 — big-endian. -/
def PubRec.tx (msg_id : Nat) : List Nat :=
  [MSG_LEN_PUBREC, MSG_TYPE_PUBREC, msg_id / 256 % 256, msg_id % 256]

/-- Source `PubRec::rx` (`PubRec.rs` lines 37-56): checks the length and type
bytes, then reads `msg_id = buf[2] as u16 + ((buf[3] as u16) << 8)` —
index 2 is taken as the LOW byte, a little-endian read.  The value is the
returned `Result`; the second component is the cancel message the
function pushes on `client.cancel_tx` in the success case
(`(remote_addr, MSG_TYPE_PUBREC, 0, msg_id)`).  The two indexed reads are
in range for any buffer accepted by the guard. -/
def PubRec.rx (buf : List Nat) (remote_addr : SocketAddr) :
    Except (Nat × Nat) Nat × List (SocketAddr × Nat × Nat × Nat) :=
  if buf.getD 0 0 = MSG_LEN_PUBREC ∧ buf.getD 1 0 = MSG_TYPE_PUBREC then
    let msg_id := (buf.getD 2 0 + buf.getD 3 0 * 256) % 65536
    (Except.ok msg_id, [(remote_addr, MSG_TYPE_PUBREC, 0, msg_id)])
  else
    (Except.error (buf.getD 0 0, MSG_LEN_PUBREC), [])

/-! ## PUBLISH frames and the message header -/

/-- The `Publish` struct of `publish.rs` (lines 74-83). -/
structure PublishMsg where
  len : Nat
  msg_type : Nat
  flags : Nat
  topic_id : Nat
  msg_id : Nat
  data : List Nat
deriving Repr, DecidableEq

/-- Modelled from the spec: `Publish::try_read` (the derive that
generates it is not among the given sources): the PUBLISH grammar is
`[len(0), msg_type(1), flags(2), topic_id(3-4), msg_id(5-6), data(7:n)]`
with big-endian 16-bit fields, matching the field order of the `Publish`
struct. -/
def Publish.try_read (buf : List Nat) (size : Nat) : PublishMsg :=
  { len := buf.getD 0 0
    msg_type := buf.getD 1 0
    flags := buf.getD 2 0
    topic_id := buf.getD 3 0 * 256 + buf.getD 4 0
    msg_id := buf.getD 5 0 * 256 + buf.getD 6 0
    data := (buf.take size).drop 7 }

inductive MsgHeaderLenEnum where
  | short
  | long
deriving Repr, DecidableEq

/-- Modelled from the spec: `MsgHeader` of `msg_hdr.rs` — the header
decoder normalises the one-byte and the three-byte length forms and
carries the peer address of the datagram. -/
structure MsgHeader where
  header_len : MsgHeaderLenEnum
  msg_type : Nat
  remote_socket_addr : SocketAddr
deriving Repr, DecidableEq

/-! ## Effects

The handlers push frames on the egress channel, schedule and cancel
retransmission-wheel entries and touch the keep-alive wheel and the
asleep/retain caches.  The model records these as an explicit list. -/

inductive Effect where
  | egressSend (addr : SocketAddr) (frame : List Nat)
  | scheduleRetrans (addr : SocketAddr) (expectType topic_id msg_id retries : Nat)
      (frame : List Nat)
  | keepAliveCancel (addr : SocketAddr)
  | keepAliveSchedule (addr : SocketAddr) (duration : Nat)
  | retainInsert (qos topic_id msg_id : Nat) (data : List Nat)
  | asleepCacheInsert (addr : SocketAddr) (msg : PublishMsg)
deriving Repr, DecidableEq

/-- The frames pushed on the egress channel among a list of effects. -/
def sentFrames (effs : List Effect) : List (SocketAddr × List Nat) :=
  effs.filterMap
    (fun e =>
      match e with
      | Effect.egressSend a f => some (a, f)
      | _ => none)

/-! ## `Publish::send` (`publish.rs` lines 243-351) -/

/-- The retransmission entries `Publish::send` schedules after building
the frame: QoS 1 expects a PUBACK with 10 retries, QoS 2 expects a PUBREC
with 1 retry, QoS 0 and 3 schedule nothing. -/
def publishSendSchedules (qos : Nat) (remote_addr : SocketAddr)
    (msg_id : Nat) (frame : List Nat) : List Effect :=
  if qos = QOS_LEVEL_1 then
    [Effect.scheduleRetrans remote_addr MSG_TYPE_PUBACK 0 msg_id 10 frame]
  else if qos = QOS_LEVEL_2 then
    [Effect.scheduleRetrans remote_addr MSG_TYPE_PUBREC 0 msg_id 1 frame]
  else []

/-- Source `Publish::send` (`publish.rs` lines 243-351): computes `len = data.len() + 7`; a frame of total
length below 256 gets the one-byte length prefix, one of length in
256..1399 gets the three-byte prefix `[1, len >> 8, len & 0xff]`, and any
longer frame is rejected with an error.  The header writes the 16-bit
msg-id before the 16-bit topic-id, both big-endian, then the data, then
the QoS-dependent retransmission entry is scheduled and the frame is
pushed on the egress channel. -/
def Publish.send (topic_id msg_id qos retain : Nat) (data : List Nat)
    (remote_addr : SocketAddr) : Except String (List Effect) :=
  let len := data.length + MSG_LEN_PUBLISH_HEADER
  let flags := flags_set DUP_FALSE qos retain WILL_FALSE CLEAN_SESSION_FALSE
    TOPIC_ID_TYPE_NORMAL
  let msg_id_byte_1 := msg_id % 256
  let topic_id_byte_1 := topic_id % 256
  let msg_id_byte_0 := msg_id / 256 % 256
  let topic_id_byte_0 := topic_id / 256 % 256
  if len < 256 then
    let frame := [len % 256, MSG_TYPE_PUBLISH, flags, msg_id_byte_0,
      msg_id_byte_1, topic_id_byte_0, topic_id_byte_1] ++ data
    Except.ok (publishSendSchedules qos remote_addr msg_id frame
      ++ [Effect.egressSend remote_addr frame])
  else if len < 1400 then
    let frame := [1, len / 256 % 256, len % 256, MSG_TYPE_PUBLISH, flags,
      msg_id_byte_0, msg_id_byte_1, topic_id_byte_0, topic_id_byte_1] ++ data
    Except.ok (publishSendSchedules qos remote_addr msg_id frame
      ++ [Effect.egressSend remote_addr frame])
  else
    Except.error "len too long"

/-! ## Connections and the broker state

`connection.rs`, `keep_alive.rs`, `client_id.rs`, `pub_msg_cache.rs` and
`pub_rec.rs` (the module `publish.rs` and `disconnect.rs` import) are not
among the given sources; their state and operations are modelled from the
spec: a per-peer connection record with a state and optional Will data, a
keep-alive wheel holding the peers with a scheduled timer, a client-id
table, and the pending-QoS2 cache keyed by (publisher, msg-id). -/

/-- Modelled from the spec: the connection states of `connection.rs`. -/
inductive StateEnum2 where
  | ACTIVE
  | ASLEEP
  | AWAKE
  | DISCONNECTED
  | LOST
deriving Repr, DecidableEq

/-- Modelled from the spec: one connection record of `connection.rs` (state, optional
Will-topic-id and Will payload). -/
structure Connection where
  state : StateEnum2
  will_topic_id : Option Nat
  will_message : List Nat
deriving Repr, DecidableEq

/-- Modelled from the spec: a subscriber as the `filter.rs` module
delivers it to the handlers —
address and QoS. -/
structure Subscriber where
  socket_addr : SocketAddr
  qos : Nat
deriving Repr, DecidableEq

/-- Modelled from the spec: the pending-QoS2 cache entry of
`pub_msg_cache.rs` — the received
PUBLISH and the snapshot of subscribers to deliver to when the PUBREL
arrives.  Modelled from the spec. -/
structure PubMsgCacheEntry where
  publish : PublishMsg
  subscriber_vec : List Subscriber
deriving Repr, DecidableEq

structure BrokerState where
  filters : FilterState
  connections : List (SocketAddr × Connection)
  pubMsgCache : List ((SocketAddr × Nat) × PubMsgCacheEntry)
  keepAlive : List SocketAddr
  clientIds : BisetMap String SocketAddr
deriving Repr, DecidableEq

/-- Modelled from the spec: `Connection::get_state` — the state of the
peer's record, an error when the peer has no record. -/
def Connection.get_state (s : BrokerState) (addr : SocketAddr) :
    Except String StateEnum2 :=
  match (s.connections.filter (fun e => e.1 = addr)).head? with
  | some e => Except.ok e.2.state
  | none => Except.error "connection not found"

/-- Modelled from the spec: `Connection::remove` — removes and returns the
peer's record, an error when the peer has no record. -/
def Connection.remove (s : BrokerState) (addr : SocketAddr) :
    Except String (Connection × BrokerState) :=
  match (s.connections.filter (fun e => e.1 = addr)).head? with
  | some e =>
    Except.ok (e.2,
      { s with connections := s.connections.filter (fun e2 => ¬ e2.1 = addr) })
  | none => Except.error "connection not found"

/-- Modelled from the spec: `Connection::update_state`. -/
def Connection.update_state (s : BrokerState) (addr : SocketAddr)
    (st : StateEnum2) : Except String BrokerState :=
  if s.connections.any (fun e => e.1 = addr) then
    Except.ok
      { s with
          connections := s.connections.map
            (fun e => if e.1 = addr then (e.1, { e.2 with state := st }) else e) }
  else Except.error "connection not found"

/-- Modelled from the spec: `PubMsgCache::try_insert` — stashes the entry
under (publisher, msg-id), an error when the key is already taken. -/
def PubMsgCache.try_insert
    (cache : List ((SocketAddr × Nat) × PubMsgCacheEntry))
    (key : SocketAddr × Nat) (v : PubMsgCacheEntry) :
    Except String (List ((SocketAddr × Nat) × PubMsgCacheEntry)) :=
  if cache.any (fun e => e.1 = key) then Except.error "key already cached"
  else Except.ok (cache ++ [(key, v)])

/-- Modelled from the spec: `PubRec::send` of `pub_rec.rs` (not among the
given sources) — replies PUBREC to the publisher — the 4-byte
big-endian PUBREC frame is pushed on the egress channel and returned for
the retransmission entry. -/
def PubRec.send (msg_id : Nat) (hdr : MsgHeader) : List Nat × List Effect :=
  (PubRec.tx msg_id,
   [Effect.egressSend hdr.remote_socket_addr (PubRec.tx msg_id)])

/-- Modelled from the spec: `PubAck::send` of `pub_ack.rs` (not among the
given sources) — replies PUBACK
`[len, type, topic_id(2), msg_id(2), return_code]` to the publisher. -/
def PubAck.send (topic_id msg_id return_code : Nat) (hdr : MsgHeader) :
    List Effect :=
  [Effect.egressSend hdr.remote_socket_addr
    [MSG_LEN_PUBACK, MSG_TYPE_PUBACK, topic_id / 256 % 256, topic_id % 256,
     msg_id / 256 % 256, msg_id % 256, return_code]]

/-! ## `Publish::recv` and the fan-out (`publish.rs` lines 141-234, 353-395) -/

/-- Source `Publish::send_msg_to_subscribers`: for each subscriber, an ACTIVE
peer is sent the message now (errors of the per-subscriber send are
ignored), an ASLEEP peer has the message appended to its asleep cache,
any other state is skipped. -/
def send_msg_to_subscribers (subs : List Subscriber) (publish : PublishMsg)
    (s : BrokerState) : List Effect :=
  subs.flatMap
    (fun sub =>
      match Connection.get_state s sub.socket_addr with
      | Except.ok StateEnum2.ACTIVE =>
        match Publish.send publish.topic_id publish.msg_id sub.qos
            RETAIN_FALSE publish.data sub.socket_addr with
        | Except.ok effs => effs
        | Except.error _ => []
      | Except.ok StateEnum2.ASLEEP =>
        [Effect.asleepCacheInsert sub.socket_addr publish]
      | Except.ok _ => []
      | Except.error _ => [])

/-- Source `Publish::recv`: parses the frame (skipping the first two bytes of a
long header), zeroes the parsed length field, snapshots the subscribers of
the topic id, then branches on the QoS bits: QoS 2 replies PUBREC,
schedules its retransmission expecting PUBREL and stashes the pending
entry under (publisher, msg-id) — returning before any fan-out; QoS 1
replies PUBACK and falls through to the fan-out; QoS 0 falls through
directly; QoS 3 is rejected with an error.  The fall-through path records
a retained message when the RETAIN flag is set and then fans the message
out to the snapshotted subscribers.  `parsePublish` is the frame parsed
according to the header form (a long header shifts the read by the two
extra length bytes), with the parsed length field zeroed
(`publish.len = 0`). -/
def parsePublish (buf : List Nat) (size : Nat) (hdr : MsgHeader) :
    PublishMsg :=
  let publish0 :=
    match hdr.header_len with
    | MsgHeaderLenEnum.short => Publish.try_read buf size
    | MsgHeaderLenEnum.long => Publish.try_read (buf.drop 2) (size - 2)
  { publish0 with len := 0 }

def Publish.recv (buf : List Nat) (size : Nat) (s : BrokerState)
    (hdr : MsgHeader) : Except String Unit × BrokerState × List Effect :=
  let publish := parsePublish buf size hdr
  let remote := hdr.remote_socket_addr
  let subscriber_vec :=
    (get_subscribers_with_topic_id s.filters publish.topic_id).map
      (fun p => Subscriber.mk p.1 p.2)
  if flag_qos_level publish.flags = QOS_LEVEL_2 then
    let sent := PubRec.send publish.msg_id hdr
    let schedEff := Effect.scheduleRetrans remote MSG_TYPE_PUBREL 0
      publish.msg_id 1 sent.1
    let msg_id := publish.msg_id
    match PubMsgCache.try_insert s.pubMsgCache (remote, msg_id)
        (PubMsgCacheEntry.mk publish subscriber_vec) with
    | Except.ok cache2 =>
      (Except.ok (), { s with pubMsgCache := cache2 }, sent.2 ++ [schedEff])
    | Except.error e => (Except.error e, s, sent.2 ++ [schedEff])
  else if flag_qos_level publish.flags = QOS_LEVEL_3 then
    (Except.error "QoS level 3 is not supported", s, [])
  else
    let ackEffs :=
      if flag_qos_level publish.flags = QOS_LEVEL_1 then
        PubAck.send publish.topic_id publish.msg_id RETURN_CODE_ACCEPTED hdr
      else []
    let retainEffs :=
      if flag_is_retain publish.flags then
        [Effect.retainInsert (flag_qos_level publish.flags) publish.topic_id
          publish.msg_id publish.data]
      else []
    (Except.ok (), s,
     ackEffs ++ retainEffs ++ send_msg_to_subscribers subscriber_vec publish s)

/-! ## `Disconnect::recv` (`disconnect.rs` lines 77-138) -/

/-- The 2-byte DISCONNECT frame `Disconnect::send` writes. -/
def Disconnect.sendFrame : List Nat := [MSG_LEN_DISCONNECT, MSG_TYPE_DISCONNECT]

/-- Source `Disconnect::recv`: a 2-byte frame (no duration) remembers whether the
peer was ACTIVE, removes the connection record, drops the client id,
cancels the keep-alive timer, replies DISCONNECT, and — when the peer was
ACTIVE and its record holds a Will topic id — sends the stored Will
message to every subscriber of that topic (per-subscriber send errors are
ignored).  A 4-byte frame (with duration) moves the peer to ASLEEP,
schedules the sleep timer and replies DISCONNECT.  Any other size is a
length error.  The keep-alive cancel of `keep_alive.rs` is modelled from
the spec as removing the peer's timer entry. -/
def Disconnect.recv (buf : List Nat) (size : Nat) (s : BrokerState)
    (hdr : MsgHeader) : Except String Unit × BrokerState × List Effect :=
  let remote := hdr.remote_socket_addr
  if size = MSG_LEN_DISCONNECT then
    match Connection.get_state s remote with
    | Except.error why => (Except.error why, s, [])
    | Except.ok st =>
      let publish_will : Bool := st = StateEnum2.ACTIVE
      match Connection.remove s remote with
      | Except.error why => (Except.error why, s, [])
      | Except.ok conn_s1 =>
        let conn := conn_s1.1
        let s2 := { conn_s1.2 with
          clientIds := conn_s1.2.clientIds.revDelete remote,
          keepAlive := conn_s1.2.keepAlive.filter (fun a => ¬ a = remote) }
        let effs0 := [Effect.keepAliveCancel remote,
          Effect.egressSend remote Disconnect.sendFrame]
        if publish_will = false then (Except.ok (), s2, effs0)
        else
          match conn.will_topic_id with
          | some topic_id =>
            let subs := get_subscribers_with_topic_id s2.filters topic_id
            let pubEffs := subs.flatMap
              (fun sub =>
                match Publish.send topic_id 0 sub.2 RETAIN_FALSE
                    conn.will_message sub.1 with
                | Except.ok effs => effs
                | Except.error _ => [])
            (Except.ok (), s2, effs0 ++ pubEffs)
          | none => (Except.ok (), s2, effs0)
  else if size = MSG_LEN_DISCONNECT_DURATION then
    let duration := buf.getD 2 0 * 256 + buf.getD 3 0
    match Connection.update_state s remote StateEnum2.ASLEEP with
    | Except.error why => (Except.error why, s, [])
    | Except.ok s1 =>
      (Except.ok (), s1,
       [Effect.keepAliveSchedule remote duration,
        Effect.egressSend remote Disconnect.sendFrame])
  else (Except.error "len err", s, [])

/-! ## Unknown-peer dispatch (`broker_lib.rs` lines 268-298) -/

inductive UnknownPeerAction where
  | connectHandler
  | publishHandler
  | dropFrame
deriving Repr, DecidableEq

/-- The unknown-peer arm of `MqttSnClient::broker_rx_loop`: a peer with no
connection record may deliver a CONNECT (handled by `Connect::recv`) or a
PUBLISH (handled by `Publish::recv`); every other type is logged and
dropped. -/
def dispatch_unknown_peer (msg_type : Nat) : UnknownPeerAction :=
  if msg_type = MSG_TYPE_CONNECT then UnknownPeerAction.connectHandler
  else if msg_type = MSG_TYPE_PUBLISH then UnknownPeerAction.publishHandler
  else UnknownPeerAction.dropFrame

/-! ## Helper lemmas -/

theorem BisetMap.mem_get_of_mem_entries {α β : Type} [DecidableEq α]
    {m : BisetMap α β} {k : α} {v : β} (h : (k, v) ∈ m.entries) :
    v ∈ m.get k := by
  simp only [BisetMap.get, List.mem_map, List.mem_filter]
  exact ⟨(k, v), ⟨h, by simp⟩, rfl⟩

theorem BisetMap.not_mem_entries_of_get_eq_nil {α β : Type} [DecidableEq α]
    {m : BisetMap α β} {k : α} {v : β} (h : m.get k = []) :
    (k, v) ∉ m.entries := by
  intro hm
  have := BisetMap.mem_get_of_mem_entries hm
  simp [h] at this

theorem BisetMap.get_append_same {α β : Type} [DecidableEq α]
    (es : List (α × β)) (k : α) (v : β) :
    BisetMap.get ⟨es ++ [(k, v)]⟩ k = BisetMap.get ⟨es⟩ k ++ [v] := by
  simp [BisetMap.get, List.filter_append]

theorem BisetMap.get_append_other {α β : Type} [DecidableEq α]
    (es : List (α × β)) (k k2 : α) (v : β) (h : k ≠ k2) :
    BisetMap.get ⟨es ++ [(k2, v)]⟩ k = BisetMap.get ⟨es⟩ k := by
  simp [BisetMap.get, List.filter_append, Ne.symm h]

theorem BisetMap.get_insert_of_get_eq_nil {α β : Type} [DecidableEq α]
    [DecidableEq β] {m : BisetMap α β} {k : α} (v : β) (h : m.get k = []) :
    (m.insert k v).get k = [v] := by
  have hnm := BisetMap.not_mem_entries_of_get_eq_nil (v := v) h
  simp only [BisetMap.insert, if_neg hnm]
  rw [show (⟨m.entries ++ [(k, v)]⟩ : BisetMap α β).get k
      = BisetMap.get ⟨m.entries ++ [(k, v)]⟩ k from rfl,
    BisetMap.get_append_same]
  simpa [BisetMap.get] using h

theorem BisetMap.mem_entries_insert_self {α β : Type} [DecidableEq α]
    [DecidableEq β] (m : BisetMap α β) (k : α) (v : β) :
    (k, v) ∈ (m.insert k v).entries := by
  by_cases h : (k, v) ∈ m.entries <;> simp [BisetMap.insert, h]

theorem sentFrames_append (l1 l2 : List Effect) :
    sentFrames (l1 ++ l2) = sentFrames l1 ++ sentFrames l2 := by
  simp [sentFrames, List.filterMap_append]

theorem sentFrames_publishSendSchedules (qos : Nat) (remote_addr : SocketAddr)
    (msg_id : Nat) (frame : List Nat) :
    sentFrames (publishSendSchedules qos remote_addr msg_id frame) = [] := by
  unfold publishSendSchedules
  by_cases h1 : qos = QOS_LEVEL_1
  · simp [h1, sentFrames]
  · by_cases h2 : qos = QOS_LEVEL_2
    · simp [h1, h2, sentFrames, QOS_LEVEL_1, QOS_LEVEL_2]
    · simp [h1, h2, sentFrames]

/-! ## Claim C1: PUBREC codec round-trip -/

/-- C1.  The claimed round-trip `PubRec::rx (PubRec::tx msg_id) = Ok
msg_id` fails on the code: `tx` writes the msg-id big-endian (high byte
at index 2) but `rx` reads it little-endian (index 2 as the low byte), so
decoding the frame built for msg-id 1 yields 256, not 1. -/
theorem pubrec_roundtrip_swaps_bytes :
    (PubRec.rx (PubRec.tx 1) 0).1 = Except.ok 256 ∧ (256 : Nat) ≠ 1 :=
  ⟨rfl, by decide⟩

/-! ## Claim C2: topic-id allocation -/

/-- C2 counterexample.  The very first topic name interned from the
initial state (`GLOBAL_TOPIC_ID = 0`) is assigned topic id 0, not 1 — so
id 0 is allocated and the claim's start-at-1 allocation fails. -/
theorem first_topic_id_is_zero :
    (try_insert_topic_name FilterState.initial "sensors/temp").1
        = Except.ok 0
      ∧ (0 : Nat) ≠ 1 :=
  ⟨rfl, by decide⟩

/-- C2 amended.  Topic-id allocation starts at 0: the counter of the
initial state is 0, a fresh name is assigned the current counter value,
and the counter then increases by exactly one (as a 16-bit value), so ids
of successively interned fresh names are 0, 1, 2, …; in particular 0 is
allocated to the first name and no id below the wrap is skipped or
reserved. -/
theorem topic_id_allocation_from_zero (s : FilterState) (name : String)
    (hfresh : s.topicNameToIds.get name = []) :
    (try_insert_topic_name s name).1 = Except.ok s.topicId
      ∧ (try_insert_topic_name s name).2.topicId = (s.topicId + 1) % 65536
      ∧ FilterState.initial.topicId = 0 := by
  refine ⟨?_, ?_, rfl⟩ <;> simp [try_insert_topic_name, hfresh]

/-- C2 amended, witness: the first fresh name of the initial state is
assigned id 0 and the counter moves to 1. -/
theorem topic_id_allocation_from_zero_witness :
    (try_insert_topic_name FilterState.initial "sensors/temp").1
        = Except.ok 0
      ∧ (try_insert_topic_name FilterState.initial "sensors/temp").2.topicId
        = 1 :=
  ⟨(topic_id_allocation_from_zero FilterState.initial "sensors/temp" rfl).1,
   (topic_id_allocation_from_zero FilterState.initial "sensors/temp" rfl).2.1⟩

/-! ## Claim C5: `valid_filter` and the single-level wildcard -/

/-- C5.  `valid_filter` does not implement the claimed strict `+` rule:
the filter `"a/+/b"` — a `+` as a complete middle segment, no `#` — is
rejected (the source's TODO path falls through to `false`), and the
filter `"a+b/#"` — whose `+` is not a complete segment — is accepted.
Both directions of the claimed exactness fail. -/
theorem valid_filter_rejects_plus_segment :
    valid_filter "a/+/b" = false ∧ valid_filter "a+b/#" = true :=
  ⟨rfl, rfl⟩

/-! ## Claim C3: resolved-wildcard-cache staleness -/

/-- C3.  The resolved-wildcard cache goes stale: subscriber 1 inserts the
filter `"a/#"`, a publish on topic `"a/x"` caches `{1}` for that topic,
then subscriber 2 also inserts `"a/#"`.  The filter `"a/#"` still matches
`"a/x"` and now carries the subscribers {1, 2}, but `match_topics "a/x"`
keeps answering `[1]` — subscriber 2 is missing, so the cached set is not
the union of the subscribers of the matching wildcard filters. -/
theorem wildcard_cache_misses_new_subscriber :
    (match_topics (insert_filter
        (match_topics ((insert_filter FilterState.initial "a/#" 1).2)
          "a/x").2 "a/#" 2).2 "a/x").1 = [1]
      ∧ ((insert_filter (match_topics
            ((insert_filter FilterState.initial "a/#" 1).2) "a/x").2
          "a/#" 2).2).wildcardFilters.get "a/#" = [1, 2]
      ∧ match_topic "a/x" "a/#" = true
      ∧ 2 ∉ (match_topics (insert_filter
          (match_topics ((insert_filter FilterState.initial "a/#" 1).2)
            "a/x").2 "a/#" 2).2 "a/x").1 := by
  refine ⟨rfl, rfl, rfl, ?_⟩
  have h : (match_topics (insert_filter
      (match_topics ((insert_filter FilterState.initial "a/#" 1).2)
        "a/x").2 "a/#" 2).2 "a/x").1 = [1] := rfl
  rw [h]
  decide

/-! ## Claim C6: the length prefix of `Publish::send` -/

/-- Helper shared by the send/disconnect theorems: any frame whose total
length stays below 1400 is accepted by `Publish::send`. -/
theorem publish_send_ok_of_small (topic_id msg_id qos retain : Nat)
    (data : List Nat) (remote_addr : SocketAddr)
    (h : data.length + 7 < 1400) :
    ∃ effs, Publish.send topic_id msg_id qos retain data remote_addr
      = Except.ok effs := by
  unfold Publish.send
  simp only [MSG_LEN_PUBLISH_HEADER]
  by_cases h2 : data.length + 7 < 256
  · rw [if_pos h2]
    exact ⟨_, rfl⟩
  · rw [if_neg h2, if_pos h]
    exact ⟨_, rfl⟩

/-- Helper: `sentFrames` of the effects of one `Publish::send` is exactly
the one frame pushed on the egress channel. -/
theorem sentFrames_sched_egress (qos : Nat) (a : SocketAddr) (m : Nat)
    (f : List Nat) :
    sentFrames (publishSendSchedules qos a m f ++ [Effect.egressSend a f])
      = [(a, f)] := by
  rw [sentFrames_append, sentFrames_publishSendSchedules]
  rfl

set_option maxRecDepth 10000 in
/-- C6 counterexample.  A PUBLISH whose total frame length is 1400 — well
inside the claimed 256..65535 three-byte-prefix range — is rejected by
`Publish::send` with "len too long". -/
theorem publish_send_rejects_len_1400 :
    Publish.send 1 1 QOS_LEVEL_0 0 (List.replicate 1393 0) 9
        = Except.error "len too long"
      ∧ (List.replicate 1393 (0 : Nat)).length + 7 = 1400
      ∧ 1400 ≤ 65535 :=
  ⟨rfl, by rw [List.length_replicate], by decide⟩

/-- C6 amended.  The length prefix of `Publish::send` covers totals up to
1399 only: a total frame length (data length + 7-byte header) below 256
is emitted with a one-byte prefix equal to the total length; a total in
256..1399 is emitted with the three-byte prefix whose first byte is 0x01
followed by the big-endian 16-bit total; any total of 1400 or more is
rejected with "len too long". -/
theorem publish_send_length_framing (topic_id msg_id qos retain : Nat)
    (data : List Nat) (remote_addr : SocketAddr) :
    (data.length + 7 < 256 →
      ∃ effs, Publish.send topic_id msg_id qos retain data remote_addr
          = Except.ok effs
        ∧ ∃ frame, sentFrames effs = [(remote_addr, frame)]
          ∧ frame.head? = some (data.length + 7)
          ∧ frame.length = data.length + 7)
  ∧ (256 ≤ data.length + 7 → data.length + 7 < 1400 →
      ∃ effs, Publish.send topic_id msg_id qos retain data remote_addr
          = Except.ok effs
        ∧ ∃ frame, sentFrames effs = [(remote_addr, frame)]
          ∧ frame.head? = some 1
          ∧ frame.getD 1 0 = (data.length + 7) / 256
          ∧ frame.getD 2 0 = (data.length + 7) % 256
          ∧ frame.length = data.length + 9)
  ∧ (1400 ≤ data.length + 7 →
      Publish.send topic_id msg_id qos retain data remote_addr
        = Except.error "len too long") := by
  refine ⟨?_, ?_, ?_⟩
  · intro h
    unfold Publish.send
    simp only [MSG_LEN_PUBLISH_HEADER]
    rw [if_pos h]
    refine ⟨_, rfl, _, sentFrames_sched_egress _ _ _ _, ?_, ?_⟩
    · simp [Nat.mod_eq_of_lt h]
    · simp
  · intro h1 h2
    unfold Publish.send
    simp only [MSG_LEN_PUBLISH_HEADER]
    rw [if_neg (show ¬ data.length + 7 < 256 by omega), if_pos h2]
    refine ⟨_, rfl, _, sentFrames_sched_egress _ _ _ _, rfl, ?_, ?_, ?_⟩
    · have hd : (data.length + 7) / 256 < 256 := by
        have hm : data.length + 7 < 256 * 256 := by omega
        exact Nat.div_lt_of_lt_mul hm
      simp [Nat.mod_eq_of_lt hd]
    · simp [Nat.mod_lt]
    · simp
  · intro h
    unfold Publish.send
    simp only [MSG_LEN_PUBLISH_HEADER]
    rw [if_neg (show ¬ data.length + 7 < 256 by omega),
      if_neg (show ¬ data.length + 7 < 1400 by omega)]

/-- C6 amended, witness: a frame of total length 256 gets the three-byte
prefix `[1, 1, 0]`. -/
theorem publish_send_length_framing_witness :
    ∃ effs, Publish.send 1 2 QOS_LEVEL_0 0 (List.replicate 249 0) 9
        = Except.ok effs
      ∧ ∃ frame, sentFrames effs = [(9, frame)]
        ∧ frame.head? = some 1
        ∧ frame.getD 1 0 = 1
        ∧ frame.getD 2 0 = 0
        ∧ frame.length = 258 := by
  have h := (publish_send_length_framing 1 2 QOS_LEVEL_0 0
    (List.replicate 249 0) 9).2.1
    (by rw [List.length_replicate])
    (by rw [List.length_replicate]; norm_num)
  rw [List.length_replicate] at h
  obtain ⟨effs, hok, frame, hsf, hh, hg1, hg2, hl⟩ := h
  exact ⟨effs, hok, frame, hsf, hh, by rw [hg1], by rw [hg2], by rw [hl]⟩

/-! ## Claim C8: QoS-3 PUBLISH handling -/

/-- C8 counterexample.  The receive loop does route a PUBLISH from an
unknown peer to `Publish::recv`, but a QoS-3 frame is not accepted:
`Publish::recv` returns the error "QoS level 3 is not supported" and
produces no effect at all — no fan-out to subscribers happens. -/
theorem qos3_publish_rejected :
    dispatch_unknown_peer MSG_TYPE_PUBLISH = UnknownPeerAction.publishHandler
      ∧ (Publish.recv [7, MSG_TYPE_PUBLISH, 0x60, 0, 1, 0, 5] 7
          ⟨FilterState.initial, [], [], [], BisetMap.empty⟩
          ⟨MsgHeaderLenEnum.short, MSG_TYPE_PUBLISH, 9⟩).1
        = Except.error "QoS level 3 is not supported"
      ∧ (Publish.recv [7, MSG_TYPE_PUBLISH, 0x60, 0, 1, 0, 5] 7
          ⟨FilterState.initial, [], [], [], BisetMap.empty⟩
          ⟨MsgHeaderLenEnum.short, MSG_TYPE_PUBLISH, 9⟩).2.2 = [] :=
  ⟨rfl, rfl, rfl⟩

/-- C8 amended.  A PUBLISH is indeed the only frame besides CONNECT an
unknown peer may deliver (the dispatcher routes it to `Publish::recv`),
but a QoS-3 PUBLISH is rejected rather than routed onward:
`Publish::recv` returns an error, leaves the state untouched and fans
nothing out. -/
theorem qos3_publish_error_no_fanout (buf : List Nat) (size : Nat)
    (s : BrokerState) (hdr : MsgHeader)
    (hq : flag_qos_level (parsePublish buf size hdr).flags = QOS_LEVEL_3) :
    Publish.recv buf size s hdr
        = (Except.error "QoS level 3 is not supported", s, [])
      ∧ dispatch_unknown_peer MSG_TYPE_PUBLISH
        = UnknownPeerAction.publishHandler := by
  constructor
  · unfold Publish.recv
    simp [hq, QOS_LEVEL_2, QOS_LEVEL_3]
  · simp [dispatch_unknown_peer, MSG_TYPE_CONNECT, MSG_TYPE_PUBLISH]

/-- C8 amended, witness: a concrete QoS-3 frame is rejected with no
effects. -/
theorem qos3_publish_error_no_fanout_witness :
    Publish.recv [7, MSG_TYPE_PUBLISH, 0x60, 0, 2, 0, 6] 7
        ⟨FilterState.initial, [], [], [], BisetMap.empty⟩
        ⟨MsgHeaderLenEnum.short, MSG_TYPE_PUBLISH, 11⟩
      = (Except.error "QoS level 3 is not supported",
         ⟨FilterState.initial, [], [], [], BisetMap.empty⟩, []) :=
  (qos3_publish_error_no_fanout [7, MSG_TYPE_PUBLISH, 0x60, 0, 2, 0, 6] 7
    ⟨FilterState.initial, [], [], [], BisetMap.empty⟩
    ⟨MsgHeaderLenEnum.short, MSG_TYPE_PUBLISH, 11⟩ rfl).1

/-! ## Claim C9: interning is total and idempotent -/

/-- C9.  `try_insert_topic_name` never returns an error, and a repeated
call with the same name returns the same topic id and leaves the whole
filter state — the name-to-id map and the id counter included —
unchanged. -/
theorem try_insert_topic_name_total_idempotent (s : FilterState)
    (name : String) :
    (∃ id, (try_insert_topic_name s name).1 = Except.ok id)
      ∧ try_insert_topic_name (try_insert_topic_name s name).2 name
        = try_insert_topic_name s name := by
  by_cases h : (s.topicNameToIds.get name).length = 0
  · have hnil : s.topicNameToIds.get name = [] := List.length_eq_zero.mp h
    have hget : ((s.topicNameToIds.insert name s.topicId)).get name
        = [s.topicId] := BisetMap.get_insert_of_get_eq_nil _ hnil
    constructor
    · exact ⟨s.topicId, by simp [try_insert_topic_name, h]⟩
    · simp [try_insert_topic_name, h, hget]
  · constructor
    · exact ⟨(s.topicNameToIds.get name).headD 0,
        by simp [try_insert_topic_name, h]⟩
    · simp [try_insert_topic_name, h]

/-! ## Claim C4: QoS-2 PUBLISH stashes and defers delivery -/

/-- C4.  `Publish::recv` on a QoS-2 PUBLISH (with the (publisher, msg-id)
key not yet cached): the call succeeds, the pending cache gains the
publish together with the snapshot of the topic's current subscribers
under the key (publisher address, msg-id), and the complete effect list
is the PUBREC reply to the publisher followed by the retransmission entry
expecting PUBREL — in particular no frame goes to any subscriber, so no
delivery happens before the PUBREL arrives. -/
theorem qos2_publish_stashes_and_defers (buf : List Nat) (size : Nat)
    (s : BrokerState) (hdr : MsgHeader)
    (hq : flag_qos_level (parsePublish buf size hdr).flags = QOS_LEVEL_2)
    (hkey : ¬ s.pubMsgCache.any (fun e =>
        e.1 = (hdr.remote_socket_addr, (parsePublish buf size hdr).msg_id))) :
    Publish.recv buf size s hdr =
      (Except.ok (),
       { s with pubMsgCache := s.pubMsgCache ++
          [((hdr.remote_socket_addr, (parsePublish buf size hdr).msg_id),
            PubMsgCacheEntry.mk (parsePublish buf size hdr)
              ((get_subscribers_with_topic_id s.filters
                  (parsePublish buf size hdr).topic_id).map
                (fun p => Subscriber.mk p.1 p.2)))] },
       [Effect.egressSend hdr.remote_socket_addr
          (PubRec.tx (parsePublish buf size hdr).msg_id),
        Effect.scheduleRetrans hdr.remote_socket_addr MSG_TYPE_PUBREL 0
          (parsePublish buf size hdr).msg_id 1
          (PubRec.tx (parsePublish buf size hdr).msg_id)]) := by
  unfold Publish.recv
  simp [hq, PubMsgCache.try_insert, hkey, PubRec.send]

/-- C4 witness: a concrete QoS-2 frame (flags 0x40, topic id 1, msg-id 5)
received from peer 9 over an empty broker state. -/
theorem qos2_publish_stashes_and_defers_witness :
    Publish.recv [7, MSG_TYPE_PUBLISH, 0x40, 0, 1, 0, 5] 7
        ⟨FilterState.initial, [], [], [], BisetMap.empty⟩
        ⟨MsgHeaderLenEnum.short, MSG_TYPE_PUBLISH, 9⟩
      = (Except.ok (),
         ⟨FilterState.initial, [],
          [((9, 5), PubMsgCacheEntry.mk ⟨0, MSG_TYPE_PUBLISH, 0x40, 1, 5, []⟩ [])],
          [], BisetMap.empty⟩,
         [Effect.egressSend 9 (PubRec.tx 5),
          Effect.scheduleRetrans 9 MSG_TYPE_PUBREL 0 5 1 (PubRec.tx 5)]) := by
  have h := qos2_publish_stashes_and_defers
    [7, MSG_TYPE_PUBLISH, 0x40, 0, 1, 0, 5] 7
    ⟨FilterState.initial, [], [], [], BisetMap.empty⟩
    ⟨MsgHeaderLenEnum.short, MSG_TYPE_PUBLISH, 9⟩ rfl (by decide)
  exact h

/-! ## Claim C10: re-subscribing with a different QoS duplicates -/

theorem BisetMap.get_insert_append {α β : Type} [DecidableEq α]
    [DecidableEq β] {m : BisetMap α β} {k : α} {v : β}
    (hnm : (k, v) ∉ m.entries) :
    (m.insert k v).get k = m.get k ++ [v] := by
  simp [BisetMap.insert, hnm, BisetMap.get, List.filter_append]

theorem BisetMap.insert_eq_self_of_mem {α β : Type} [DecidableEq α]
    [DecidableEq β] {m : BisetMap α β} {k : α} {v : β}
    (h : (k, v) ∈ m.entries) : m.insert k v = m := by
  simp [BisetMap.insert, h]

theorem filter_flatMap_eq_nil (l : List SocketAddr)
    (g : SocketAddr → List Nat) (addr : SocketAddr) (h : addr ∉ l) :
    ((l.flatMap (fun sock => (g sock).map (fun qos => (sock, qos)))).filter
      (fun e => e.1 = addr)) = [] := by
  induction l with
  | nil => rfl
  | cons a t ih =>
    have ha : ¬ a = addr := fun heq => h (heq ▸ List.mem_cons_self a t)
    have ht : addr ∉ t := fun hm => h (List.mem_cons_of_mem _ hm)
    simp only [List.flatMap_cons, List.filter_append, ih ht, List.append_nil]
    simp [List.filter_map, Function.comp, ha]

/-- C10.  Subscribing the same (topic id, peer) twice with two distinct
QoS values makes the peer appear twice in the delivery set: after the two
inserts, the entries `get_subscribers_with_topic_id` returns for that
peer are exactly `[(peer, qos1), (peer, qos2)]` — one per stored QoS
value. -/
theorem resubscribe_duplicate_delivery (s : FilterState)
    (addr : SocketAddr) (id q1 q2 : Nat) (hq : q1 ≠ q2)
    (h1 : addr ∉ s.topicIds.get id)
    (h2 : s.topicIdsQos.get (id, addr) = []) :
    (get_subscribers_with_topic_id
        ((insert_subscriber_with_topic_id
          ((insert_subscriber_with_topic_id s addr id q1).2) addr id q2).2)
        id).filter (fun e => e.1 = addr)
      = [(addr, q1), (addr, q2)] := by
  have hmemA : (id, addr) ∉ s.topicIds.entries :=
    fun hm => h1 (BisetMap.mem_get_of_mem_entries hm)
  have hmemB1 : ((id, addr), q1) ∉ s.topicIdsQos.entries := by
    intro hm
    have hg := BisetMap.mem_get_of_mem_entries hm
    simp [h2] at hg
  have hB1entries :
      ((insert_subscriber_with_topic_id s addr id q1).2).topicIdsQos.entries
        = s.topicIdsQos.entries ++ [((id, addr), q1)] := by
    simp [insert_subscriber_with_topic_id, BisetMap.insert, hmemB1]
  have hmemB2 : ((id, addr), q2) ∉
      ((insert_subscriber_with_topic_id s addr id q1).2).topicIdsQos.entries := by
    rw [hB1entries]
    intro hm
    rcases List.mem_append.mp hm with hm1 | hm2
    · have hg := BisetMap.mem_get_of_mem_entries hm1
      simp [h2] at hg
    · simp at hm2
      exact hq hm2.symm
  have getA :
      (((insert_subscriber_with_topic_id
          ((insert_subscriber_with_topic_id s addr id q1).2) addr id
          q2).2)).topicIds.get id
        = s.topicIds.get id ++ [addr] := by
    have hself : ((insert_subscriber_with_topic_id s addr id
        q1).2).topicIds.insert id addr
          = ((insert_subscriber_with_topic_id s addr id q1).2).topicIds :=
      BisetMap.insert_eq_self_of_mem
        (BisetMap.mem_entries_insert_self s.topicIds id addr)
    show (((insert_subscriber_with_topic_id s addr id
        q1).2).topicIds.insert id addr).get id = _
    rw [hself]
    exact BisetMap.get_insert_append hmemA
  have getB :
      (((insert_subscriber_with_topic_id
          ((insert_subscriber_with_topic_id s addr id q1).2) addr id
          q2).2)).topicIdsQos.get (id, addr)
        = [q1, q2] := by
    show (((insert_subscriber_with_topic_id s addr id
        q1).2).topicIdsQos.insert (id, addr) q2).get (id, addr) = _
    rw [BisetMap.get_insert_append hmemB2,
      show ((insert_subscriber_with_topic_id s addr id
        q1).2).topicIdsQos.get (id, addr)
          = s.topicIdsQos.get (id, addr) ++ [q1] from
        BisetMap.get_insert_append hmemB1, h2]
    rfl
  unfold get_subscribers_with_topic_id
  rw [getA, List.flatMap_append, List.filter_append,
    filter_flatMap_eq_nil _ _ _ h1]
  simp [getB]

/-- C10 witness: peer 7 subscribes to topic id 3 first with QoS 1 (0x20)
and then with QoS 2 (0x40); it appears twice in the delivery set. -/
theorem resubscribe_duplicate_delivery_witness :
    (get_subscribers_with_topic_id
        ((insert_subscriber_with_topic_id
          ((insert_subscriber_with_topic_id FilterState.initial 7 3
            QOS_LEVEL_1).2) 7 3 QOS_LEVEL_2).2)
        3).filter (fun e => e.1 = 7)
      = [(7, QOS_LEVEL_1), (7, QOS_LEVEL_2)] :=
  resubscribe_duplicate_delivery FilterState.initial 7 3 QOS_LEVEL_1
    QOS_LEVEL_2 (by decide) (by decide) rfl

/-! ## Claim C7: DISCONNECT without duration from an ACTIVE peer -/

/-- C7.  `Disconnect::recv` on a 2-byte DISCONNECT (no duration field)
from a peer whose connection state is ACTIVE: the call succeeds, the
peer's connection record is removed from the connection table, the
keep-alive timer is cancelled, a DISCONNECT reply goes back to the peer,
and — when the record holds a Will topic — the effects of publishing the
stored Will message with `Publish::send` are produced for every
subscriber of that Will topic (the Will payload is assumed small enough
to encode, below the 1400-byte cap of `Publish::send`). -/
theorem disconnect_active_cleanup (buf : List Nat) (size : Nat)
    (s : BrokerState) (hdr : MsgHeader) (conn : Connection)
    (hsz : size = MSG_LEN_DISCONNECT)
    (hhead : (s.connections.filter
        (fun e => e.1 = hdr.remote_socket_addr)).head?
      = some (hdr.remote_socket_addr, conn))
    (hact : conn.state = StateEnum2.ACTIVE)
    (hwl : conn.will_message.length + 7 < 1400) :
    (Disconnect.recv buf size s hdr).1 = Except.ok ()
  ∧ (Disconnect.recv buf size s hdr).2.1.connections
      = s.connections.filter (fun e2 => ¬ e2.1 = hdr.remote_socket_addr)
  ∧ Effect.keepAliveCancel hdr.remote_socket_addr
      ∈ (Disconnect.recv buf size s hdr).2.2
  ∧ Effect.egressSend hdr.remote_socket_addr Disconnect.sendFrame
      ∈ (Disconnect.recv buf size s hdr).2.2
  ∧ ∀ topic_id, conn.will_topic_id = some topic_id →
      ∀ sub ∈ get_subscribers_with_topic_id s.filters topic_id,
        ∃ effsSub,
          Publish.send topic_id 0 sub.2 RETAIN_FALSE conn.will_message
              sub.1 = Except.ok effsSub
          ∧ ∀ e ∈ effsSub, e ∈ (Disconnect.recv buf size s hdr).2.2 := by
  subst hsz
  rcases hwt : conn.will_topic_id with _ | topic_id
  · have hrecv : Disconnect.recv buf MSG_LEN_DISCONNECT s hdr
        = (Except.ok (),
           { s with
              connections := s.connections.filter
                (fun e2 => ¬ e2.1 = hdr.remote_socket_addr),
              clientIds := s.clientIds.revDelete hdr.remote_socket_addr,
              keepAlive := s.keepAlive.filter
                (fun a => ¬ a = hdr.remote_socket_addr) },
           [Effect.keepAliveCancel hdr.remote_socket_addr,
            Effect.egressSend hdr.remote_socket_addr Disconnect.sendFrame]) := by
      unfold Disconnect.recv
      simp [Connection.get_state, Connection.remove, hhead, hact, hwt]
    rw [hrecv]
    refine ⟨rfl, rfl, by simp, by simp, ?_⟩
    intro t heq
    exact Option.noConfusion heq
  · have hrecv : Disconnect.recv buf MSG_LEN_DISCONNECT s hdr
        = (Except.ok (),
           { s with
              connections := s.connections.filter
                (fun e2 => ¬ e2.1 = hdr.remote_socket_addr),
              clientIds := s.clientIds.revDelete hdr.remote_socket_addr,
              keepAlive := s.keepAlive.filter
                (fun a => ¬ a = hdr.remote_socket_addr) },
           [Effect.keepAliveCancel hdr.remote_socket_addr,
            Effect.egressSend hdr.remote_socket_addr Disconnect.sendFrame]
           ++ (get_subscribers_with_topic_id s.filters topic_id).flatMap
              (fun sub =>
                match Publish.send topic_id 0 sub.2 RETAIN_FALSE
                    conn.will_message sub.1 with
                | Except.ok effs => effs
                | Except.error _ => [])) := by
      unfold Disconnect.recv
      simp [Connection.get_state, Connection.remove, hhead, hact, hwt]
    rw [hrecv]
    refine ⟨rfl, rfl, by simp, by simp, ?_⟩
    intro t heq
    injection heq with ht
    subst ht
    intro sub hsub
    obtain ⟨effsSub, hok⟩ := publish_send_ok_of_small topic_id 0 sub.2
      RETAIN_FALSE conn.will_message sub.1 hwl
    refine ⟨effsSub, hok, ?_⟩
    intro e he
    simp only [List.mem_append]
    right
    exact List.mem_flatMap.mpr ⟨sub, hsub, by rw [hok]; exact he⟩

/-- C7 witness: peer 5 is ACTIVE with Will topic 3 and Will payload
`[100]`; peer 7 subscribes to topic 3 with QoS 1.  The DISCONNECT removes
peer 5, cancels its keep-alive, replies DISCONNECT, and the Will publish
to peer 7 succeeds with all its effects among the handler's effects. -/
theorem disconnect_active_cleanup_witness :
    (Disconnect.recv [2, MSG_TYPE_DISCONNECT] 2
        ⟨⟨BisetMap.empty, BisetMap.empty, BisetMap.empty, ⟨[(3, 7)]⟩,
          ⟨[((3, 7), QOS_LEVEL_1)]⟩, BisetMap.empty, 4⟩,
         [(5, ⟨StateEnum2.ACTIVE, some 3, [100]⟩)], [], [5], BisetMap.empty⟩
        ⟨MsgHeaderLenEnum.short, MSG_TYPE_DISCONNECT, 5⟩).1 = Except.ok ()
  ∧ (Disconnect.recv [2, MSG_TYPE_DISCONNECT] 2
        ⟨⟨BisetMap.empty, BisetMap.empty, BisetMap.empty, ⟨[(3, 7)]⟩,
          ⟨[((3, 7), QOS_LEVEL_1)]⟩, BisetMap.empty, 4⟩,
         [(5, ⟨StateEnum2.ACTIVE, some 3, [100]⟩)], [], [5], BisetMap.empty⟩
        ⟨MsgHeaderLenEnum.short, MSG_TYPE_DISCONNECT, 5⟩).2.1.connections = []
  ∧ Effect.keepAliveCancel 5
      ∈ (Disconnect.recv [2, MSG_TYPE_DISCONNECT] 2
        ⟨⟨BisetMap.empty, BisetMap.empty, BisetMap.empty, ⟨[(3, 7)]⟩,
          ⟨[((3, 7), QOS_LEVEL_1)]⟩, BisetMap.empty, 4⟩,
         [(5, ⟨StateEnum2.ACTIVE, some 3, [100]⟩)], [], [5], BisetMap.empty⟩
        ⟨MsgHeaderLenEnum.short, MSG_TYPE_DISCONNECT, 5⟩).2.2
  ∧ Effect.egressSend 5 Disconnect.sendFrame
      ∈ (Disconnect.recv [2, MSG_TYPE_DISCONNECT] 2
        ⟨⟨BisetMap.empty, BisetMap.empty, BisetMap.empty, ⟨[(3, 7)]⟩,
          ⟨[((3, 7), QOS_LEVEL_1)]⟩, BisetMap.empty, 4⟩,
         [(5, ⟨StateEnum2.ACTIVE, some 3, [100]⟩)], [], [5], BisetMap.empty⟩
        ⟨MsgHeaderLenEnum.short, MSG_TYPE_DISCONNECT, 5⟩).2.2 := by
  have h := disconnect_active_cleanup [2, MSG_TYPE_DISCONNECT] 2
    ⟨⟨BisetMap.empty, BisetMap.empty, BisetMap.empty, ⟨[(3, 7)]⟩,
      ⟨[((3, 7), QOS_LEVEL_1)]⟩, BisetMap.empty, 4⟩,
     [(5, ⟨StateEnum2.ACTIVE, some 3, [100]⟩)], [], [5], BisetMap.empty⟩
    ⟨MsgHeaderLenEnum.short, MSG_TYPE_DISCONNECT, 5⟩
    ⟨StateEnum2.ACTIVE, some 3, [100]⟩ rfl rfl rfl (by decide)
  exact ⟨h.1, h.2.1, h.2.2.1, h.2.2.2.1⟩

end MqttSn
